import Mathlib

/-!
Verification of the FastAPI tutorial service in `src/main.py`.

Each route handler is embedded as a pure Lean function. Where a claim
depends on framework behaviour that the repository only declares
(parameter coercion, body validation driven by the pydantic schema, the
background-task runner, response-model serialization), that layer is
modelled from the specification and marked as such in its doc comment.
-/

/-! ## Data model (src/main.py lines 27-47) -/

/-- The `Course` enum (src/main.py lines 33-36): three string literals. -/
inductive Course where
  | chemistry
  | physics
  | math
deriving DecidableEq, Repr

/-- The string literal value of each `Course` member. -/
def Course.value : Course → String
  | .chemistry => "chemistry"
  | .physics => "physics"
  | .math => "math"

/-- Modelled from the spec: the Router/Validator matches an enum path
segment by exact, case-sensitive string equality with one of the declared
literal values; anything else fails validation. The matching engine is
FastAPI's, not part of `src/`. -/
def Course.parse (s : String) : Option Course :=
  if s = "chemistry" then some Course.chemistry
  else if s = "physics" then some Course.physics
  else if s = "math" then some Course.math
  else none

/-- The `Cart` response model (src/main.py lines 27-30). -/
structure Cart where
  items : List String
  totalPrice : Int
  promotionsAttached : Bool
deriving DecidableEq, Repr

/-- The validated `CourseEntity` body model (src/main.py lines 39-47). -/
structure CourseEntity where
  id : Int
  name : String
  description : String
  language : Option String
  rating : Int
  tags : List String
deriving DecidableEq, Repr

/-- An explicit HTTP error raised by a handler (`HTTPException`). -/
structure HTTPError where
  status_code : Nat
  detail : String
deriving DecidableEq, Repr

/-! ## Handlers (src/main.py lines 62-145) -/

/-- Response shape of `get_course` (src/main.py lines 76-94). -/
structure CourseResponse where
  description : String
  language : String
  minRating : Int
deriving DecidableEq, Repr

/-- Handler `get_course` (src/main.py lines 73-94): three `if` branches on
the course value, each returning a dict; past the last `if` the Python
function falls through and implicitly returns `None`, modelled as `none`. -/
def get_course (course : Course) (language : String) (minRating : Int) :
    Option CourseResponse :=
  if course = Course.chemistry then
    some { description := "Let's learn about chemicals!",
           language := language, minRating := minRating }
  else if course = Course.physics then
    some { description := "Let's learn about physical matters!",
           language := language, minRating := minRating }
  else if course = Course.math then
    some { description := "Let's learn about numbers!",
           language := language, minRating := minRating }
  else
    none

/-- Response shape of `read_item` (src/main.py line 66). -/
structure ItemResponse where
  item_id : Int
deriving DecidableEq, Repr

/-- Handler `read_item` (src/main.py lines 64-66). -/
def read_item (item_id : Int) : ItemResponse :=
  { item_id := item_id }

/-- Response shape of `get_flights` on success (src/main.py line 139). -/
structure FlightResponse where
  message : String
deriving DecidableEq, Repr

/-- Handler `get_flights` (src/main.py lines 134-139): raises a 404
`HTTPException` when the id is not in `[1, 2, 3]`, otherwise returns
the fixed success message. -/
def get_flights (flight_id : Int) : Except HTTPError FlightResponse :=
  if flight_id ∉ ([1, 2, 3] : List Int) then
    Except.error { status_code := 404, detail := "Flight not found" }
  else
    Except.ok { message := "Fly high!" }

/-- Handler `create_course` (src/main.py lines 100-103): returns the
already-validated entity unchanged. -/
def create_course (course : CourseEntity) : CourseEntity :=
  course

/-- Response shape of `get_students` (src/main.py lines 114-118). -/
structure StudentsResponse where
  cookie_token_found : Option String
  ads_id_in_browser : Option String
  incoming_user_agent : Option String
deriving DecidableEq, Repr

/-- Handler `get_students` (src/main.py lines 108-118): echoes the two
optional cookies and the optional header, each `None` when absent. -/
def get_students (token ads_id user_agent : Option String) :
    StudentsResponse :=
  { cookie_token_found := token,
    ads_id_in_browser := ads_id,
    incoming_user_agent := user_agent }

/-- Handler `get_cart` (src/main.py lines 124-130): a fixed cart. -/
def get_cart : Cart :=
  { items := ["shampoo", "chocolates", "soap"],
    totalPrice := 1500,
    promotionsAttached := false }

/-! ## Spec-modelled framework layers -/

/-- A raw `POST /courses/` body: each field is present or absent, and a
present `language` may itself be JSON null. -/
structure RawCourseBody where
  id : Option Int
  name : Option String
  description : Option String
  language : Option (Option String)
  rating : Option Int
  tags : Option (List String)
deriving DecidableEq, Repr

/-- A body-validation failure with the offending field. -/
inductive BodyError where
  | missingField (field : String)
  | tooShort (field : String) (minLength : Nat)
deriving DecidableEq, Repr

/-- Modelled from the spec: the body-validation engine (pydantic, not in
`src/`) interpreting the `CourseEntity` schema declared in src/main.py
lines 39-47: `id`, `name`, `rating` and `description` are required,
`description` must be at least 5 characters (`min_length=5`), `language`
is optional defaulting to null, `tags` is optional defaulting to
`["public"]`. Validation runs before the handler; any failure rejects
the request. -/
def validateCourseEntity (b : RawCourseBody) : Except BodyError CourseEntity :=
  match b.id with
  | none => Except.error (BodyError.missingField "id")
  | some i =>
    match b.name with
    | none => Except.error (BodyError.missingField "name")
    | some n =>
      match b.description with
      | none => Except.error (BodyError.missingField "description")
      | some d =>
        if d.length < 5 then
          Except.error (BodyError.tooShort "description" 5)
        else
          match b.rating with
          | none => Except.error (BodyError.missingField "rating")
          | some r =>
            Except.ok { id := i, name := n, description := d,
                        language := b.language.getD none,
                        rating := r,
                        tags := b.tags.getD ["public"] }

/-- The route layer for `POST /courses/`: validate the body, then run the
handler `create_course` on the validated entity; a validation failure
produces a 422 before the handler runs. -/
def handle_create_course (b : RawCourseBody) : Except BodyError CourseEntity :=
  (validateCourseEntity b).map create_course

/-- One enqueued background job: the captured callable arguments of
`write_notification` (src/main.py lines 13-16). -/
structure BackgroundJob where
  email : String
  message : String
deriving DecidableEq, Repr

/-- Handler `send_email` (src/main.py lines 143-145): enqueues one
`write_notification` task with the request email and the fixed message,
and returns the default 200 response with no body. -/
def send_email (email : String) : List BackgroundJob × Nat :=
  ([{ email := email, message := "Hellooo world!!" }], 200)

/-- An observable event of one request/response cycle. -/
inductive Event where
  | responseSent (status : Nat)
  | jobStarted (email : String) (message : String)
  | jobSucceeded
  | jobFailed
deriving DecidableEq, Repr

/-- Modelled from the spec: the Background Task Runner (the framework's,
not in `src/`) hands the response off first, then runs each enqueued job
exactly once in order; an unhandled failure inside a job is contained at
the runner boundary and never alters the already-sent response. `fails`
says which jobs fail when run. -/
def runRequestCycle (jobs : List BackgroundJob) (status : Nat)
    (fails : BackgroundJob → Bool) : List Event :=
  Event.responseSent status ::
    jobs.flatMap (fun j =>
      [Event.jobStarted j.email j.message,
       if fails j then Event.jobFailed else Event.jobSucceeded])

/-- The full cycle of `GET /send_email/{email}`: run the handler, send the
response, then run the enqueued jobs. -/
def processSendEmail (email : String) (fails : BackgroundJob → Bool) :
    List Event :=
  runRequestCycle (send_email email).1 (send_email email).2 fails

/-- How many times a job starts in a trace. -/
def countJobStarts (trace : List Event) : Nat :=
  trace.countP (fun e =>
    match e with
    | Event.jobStarted _ _ => true
    | _ => false)

/-- The numeric value of a decimal digit character, `none` otherwise. -/
def digitVal (c : Char) : Option Nat :=
  if '0' ≤ c ∧ c ≤ '9' then some (c.toNat - '0'.toNat) else none

/-- Accumulate the decimal value of a digit string; `none` on the first
non-digit character. -/
def parseNatAux : List Char → Nat → Option Nat
  | [], acc => some acc
  | c :: cs, acc =>
    match digitVal c with
    | some d => parseNatAux cs (acc * 10 + d)
    | none => none

/-- Modelled from the spec: the Router/Validator coerces an integer path
segment with ordinary decimal integer parsing, an optional leading minus
sign (FastAPI's coercion, not in `src/`); a segment that cannot be coerced
is rejected. -/
def parseIntSegment (s : String) : Option Int :=
  match s.data with
  | [] => none
  | '-' :: cs =>
    match cs with
    | [] => none
    | _ => (parseNatAux cs 0).map (fun n => -(n : Int))
  | cs => (parseNatAux cs 0).map (fun n => (n : Int))

/-- Outcome of a routed `GET /items/{item_id}` request. -/
inductive ItemsResult where
  | ok (status : Nat) (body : ItemResponse)
  | validationError (status : Nat)
deriving DecidableEq, Repr

/-- The route layer for `GET /items/{item_id}`: coerce the path segment to
an integer, rejecting with 422 before the handler runs on failure. -/
def handle_items (segment : String) : ItemsResult :=
  match parseIntSegment segment with
  | some n => ItemsResult.ok 200 (read_item n)
  | none => ItemsResult.validationError 422

/-- Outcome of a routed `GET /courses/{course}` request. -/
inductive CoursesResult where
  | ok (status : Nat) (body : Option CourseResponse)
  | validationError (status : Nat)
deriving DecidableEq, Repr

/-- Modelled from the spec: the route layer for `GET /courses/{course}`
(FastAPI's validation, not in `src/`): the path segment must match a
declared enum literal and the `language` query parameter is required, each
failure a 422 before the handler runs; the `minRating` query parameter is
optional with declared default 0. -/
def handle_courses (courseSeg : String) (language : Option String)
    (minRating : Option Int) : CoursesResult :=
  match Course.parse courseSeg with
  | none => CoursesResult.validationError 422
  | some c =>
    match language with
    | none => CoursesResult.validationError 422
    | some lang => CoursesResult.ok 200 (get_course c lang (minRating.getD 0))

/-- A serialized JSON value. -/
inductive JsonValue where
  | str (s : String)
  | int (n : Int)
  | bool (b : Bool)
  | arr (xs : List JsonValue)
  | obj (fields : List (String × JsonValue))
  | null
deriving Repr

/-- Modelled from the spec: serialization of `GET /current_cart` under
`response_model=Cart` (src/main.py line 124): the body carries exactly the
three fields the `Cart` model declares, in declaration order. -/
def serializeCart (c : Cart) : JsonValue :=
  JsonValue.obj
    [("items", JsonValue.arr (c.items.map JsonValue.str)),
     ("totalPrice", JsonValue.int c.totalPrice),
     ("promotionsAttached", JsonValue.bool c.promotionsAttached)]

/-- The field names of a serialized JSON object. -/
def objFields : JsonValue → List String
  | JsonValue.obj fields => fields.map Prod.fst
  | _ => []

/-- The route layer for `GET /students/`: the handler declares no explicit
status, so the framework default 200 applies on success. -/
def handle_students (token ads_id user_agent : Option String) :
    Nat × StudentsResponse :=
  (200, get_students token ads_id user_agent)

/-! ## Claim theorems -/

/-- C1: for every value of the declared `Course` enum the handler
`get_course` returns a non-null response; the implicit fall-through branch
that returns no value is unreachable when the argument is one of the three
declared literals. -/
theorem get_course_never_falls_through
    (course : Course) (language : String) (minRating : Int) :
    (get_course course language minRating).isSome = true := by
  cases course <;> simp [get_course]

/-- C2: `get_flights` raises the explicit 404 error with detail
"Flight not found" exactly when `flight_id` is outside `{1, 2, 3}`, and
returns the 200 success message "Fly high!" for every id in `{1, 2, 3}`. -/
theorem get_flights_404_iff_unknown (flight_id : Int) :
    (flight_id ∉ ([1, 2, 3] : List Int) →
      get_flights flight_id =
        Except.error { status_code := 404, detail := "Flight not found" }) ∧
    (flight_id ∈ ([1, 2, 3] : List Int) →
      get_flights flight_id = Except.ok { message := "Fly high!" }) := by
  constructor
  · intro h
    simp [get_flights, h]
  · intro h
    simp [get_flights, h]

/-- C2 witness: the theorem applied at the concrete ids 4 and 1. -/
theorem get_flights_404_iff_unknown_witness :
    get_flights 4 =
      Except.error { status_code := 404, detail := "Flight not found" } ∧
    get_flights 1 = Except.ok { message := "Fly high!" } :=
  ⟨(get_flights_404_iff_unknown 4).1 (by decide),
   (get_flights_404_iff_unknown 1).2 (by decide)⟩

/-- C3: body validation for `POST /courses/` rejects every body whose
`description` is shorter than 5 characters before the handler runs;
a body with a 5-character description and the required fields present is
accepted, and the handler echoes the validated entity unchanged, `tags`
defaulting to `["public"]` when omitted (the `getD ["public"]` below). -/
theorem create_course_description_validation (b : RawCourseBody) :
    (∀ c : CourseEntity, create_course c = c) ∧
    (∀ d, b.description = some d → d.length < 5 →
      ∃ e, handle_create_course b = Except.error e) ∧
    (∀ i n d r, b.id = some i → b.name = some n → b.rating = some r →
      b.description = some d → d.length = 5 →
      handle_create_course b =
        Except.ok { id := i, name := n, description := d,
                    language := b.language.getD none, rating := r,
                    tags := b.tags.getD ["public"] }) := by
  obtain ⟨i, n, desc, lang, r, t⟩ := b
  refine ⟨fun c => rfl, ?_, ?_⟩
  · intro d hd hlen
    cases i <;> cases n <;> cases desc <;> cases r <;>
      simp_all [handle_create_course, validateCourseEntity, create_course] <;>
      exact ⟨_, rfl⟩
  · intro i0 n0 d r0 hi hn hr hd hlen
    cases i <;> cases n <;> cases desc <;> cases r <;>
      simp_all [handle_create_course, validateCourseEntity, create_course] <;>
      rfl

/-- C3 witness: the theorem applied to a body with a 3-character
description (rejected) and to one with a 5-character description and
`tags` omitted (accepted, echoed, tags defaulted). -/
theorem create_course_description_validation_witness :
    (∃ e, handle_create_course
        { id := some 1, name := some "algebra", description := some "abc",
          language := none, rating := some 4, tags := none } =
      Except.error e) ∧
    handle_create_course
        { id := some 1, name := some "algebra", description := some "abcde",
          language := none, rating := some 4, tags := none } =
      Except.ok { id := 1, name := "algebra", description := "abcde",
                  language := none, rating := 4, tags := ["public"] } := by
  constructor
  · exact (create_course_description_validation _).2.1 "abc" rfl (by decide)
  · simpa using (create_course_description_validation _).2.2
      1 "algebra" "abcde" 4 rfl rfl rfl rfl (by decide)

/-- C4: for every email the handler enqueues exactly one background job
(`write_notification` with that email and the fixed message); the response
is handed off first in the cycle trace, the job starts exactly once and
strictly after the handoff, and a failing job leaves the already-sent 200
response unchanged. -/
theorem send_email_background_job_semantics (email : String)
    (fails : BackgroundJob → Bool) :
    processSendEmail email fails =
      [Event.responseSent 200,
       Event.jobStarted email "Hellooo world!!",
       if fails { email := email, message := "Hellooo world!!" } then
         Event.jobFailed
       else
         Event.jobSucceeded] ∧
    countJobStarts (processSendEmail email fails) = 1 ∧
    (processSendEmail email fails).head? = some (Event.responseSent 200) := by
  refine ⟨?_, ?_, rfl⟩
  · cases h : fails { email := email, message := "Hellooo world!!" } <;>
      simp [processSendEmail, runRequestCycle, send_email, h]
  · cases h : fails { email := email, message := "Hellooo world!!" } <;>
      simp [processSendEmail, runRequestCycle, send_email, countJobStarts, h]

/-- C5: a `GET /items/{item_id}` request whose path segment coerces to the
integer `n` returns `{item_id: n}` with status 200; a segment that cannot
be coerced is rejected with a 422 validation error before the handler
runs. -/
theorem read_item_echoes_integer (segment : String) :
    (∀ n : Int, parseIntSegment segment = some n →
      handle_items segment = ItemsResult.ok 200 { item_id := n }) ∧
    (parseIntSegment segment = none →
      handle_items segment = ItemsResult.validationError 422) := by
  constructor
  · intro n h
    simp [handle_items, h, read_item]
  · intro h
    simp [handle_items, h]

/-- C5 witness: the theorem applied at the segments "5" and "abc". -/
theorem read_item_echoes_integer_witness :
    handle_items "5" = ItemsResult.ok 200 { item_id := 5 } ∧
    handle_items "abc" = ItemsResult.validationError 422 :=
  ⟨(read_item_echoes_integer "5").1 5 (by decide),
   (read_item_echoes_integer "abc").2 (by decide)⟩

/-- C6: `GET /current_cart` always serializes to exactly the three fields
`items`, `totalPrice`, `promotionsAttached` declared by the `Cart`
response model, with `totalPrice = 1500` and `promotionsAttached =
false`. -/
theorem get_cart_response_shape :
    serializeCart get_cart =
      JsonValue.obj
        [("items", JsonValue.arr
            [JsonValue.str "shampoo", JsonValue.str "chocolates",
             JsonValue.str "soap"]),
         ("totalPrice", JsonValue.int 1500),
         ("promotionsAttached", JsonValue.bool false)] ∧
    objFields (serializeCart get_cart) =
      ["items", "totalPrice", "promotionsAttached"] ∧
    get_cart.totalPrice = 1500 ∧ get_cart.promotionsAttached = false :=
  ⟨rfl, rfl, rfl, rfl⟩

/-- C7: `GET /courses/chemistry?language=en` with `minRating` omitted
returns the chemistry description, language "en" and the declared default
`minRating = 0`; any path segment outside the declared enum literals is
rejected with a 422 validation error. -/
theorem get_course_chemistry_default_minRating :
    handle_courses "chemistry" (some "en") none =
      CoursesResult.ok 200
        (some { description := "Let's learn about chemicals!",
                language := "en", minRating := 0 }) ∧
    (∀ seg language minRating, Course.parse seg = none →
      handle_courses seg language minRating =
        CoursesResult.validationError 422) := by
  constructor
  · rfl
  · intro seg language minRating h
    simp [handle_courses, h]

/-- C7 witness: the theorem applied at the unknown segment "xyz". -/
theorem get_course_chemistry_default_minRating_witness :
    handle_courses "chemistry" (some "en") none =
      CoursesResult.ok 200
        (some { description := "Let's learn about chemicals!",
                language := "en", minRating := 0 }) ∧
    handle_courses "xyz" (some "en") none =
      CoursesResult.validationError 422 :=
  ⟨get_course_chemistry_default_minRating.1,
   get_course_chemistry_default_minRating.2 "xyz" (some "en") none
     (by decide)⟩

/-- C8: `GET /students/` succeeds with status 200 for every combination of
present and absent optional inputs, each response field equal to the
corresponding supplied value when present and null when absent. -/
theorem get_students_echoes_optional_inputs
    (token ads_id user_agent : Option String) :
    handle_students token ads_id user_agent =
      (200, { cookie_token_found := token, ads_id_in_browser := ads_id,
              incoming_user_agent := user_agent }) := rfl

/-- C9: for every declared course and every language/minRating pair,
`get_course` echoes the supplied language and minRating unchanged in its
response, whichever course was selected. -/
theorem get_course_echoes_query_params
    (course : Course) (language : String) (minRating : Int) :
    ∃ body, get_course course language minRating = some body ∧
      body.language = language ∧ body.minRating = minRating := by
  cases course <;> exact ⟨_, rfl, rfl, rfl⟩

/-- C10: the success response of `get_flights` does not depend on which
valid flight id was supplied: any two ids in `{1, 2, 3}` produce the
identical response `{message: "Fly high!"}`, and the handler is a pure
function, so repeated identical requests yield identical responses. -/
theorem get_flights_uniform_on_valid_ids (a b : Int)
    (ha : a ∈ ([1, 2, 3] : List Int)) (hb : b ∈ ([1, 2, 3] : List Int)) :
    get_flights a = get_flights b ∧
    get_flights a = Except.ok { message := "Fly high!" } := by
  have h1 : get_flights a = Except.ok { message := "Fly high!" } := by
    simp [get_flights, ha]
  have h2 : get_flights b = Except.ok { message := "Fly high!" } := by
    simp [get_flights, hb]
  exact ⟨h1.trans h2.symm, h1⟩

/-- C10 witness: the theorem applied at the valid ids 1 and 2. -/
theorem get_flights_uniform_on_valid_ids_witness :
    get_flights 1 = get_flights 2 ∧
    get_flights 1 = Except.ok { message := "Fly high!" } :=
  get_flights_uniform_on_valid_ids 1 2 (by decide) (by decide)
